import Mathlib

/-!
Shallow embedding of the Simmetric pedal-telemetry component
(`SimagicPedalTelemetry`): the gamepad polling step, the signal
normalization, the rolling history buffer, the session peak statistics,
the canvas draw routine and the manual refresh operation, modelled as
pure functions over an explicit component state.  Axis values and
percentages are modelled as rationals, timestamps as integers
(milliseconds).
-/

/-- Connection status values taken by the `connectionStatus` state:
`polling` (initial / after refresh), `connected` (matched device),
`connectedGeneric` (fallback generic gamepad), `noDevice` (timeout). -/
inductive ConnectionStatus
  | polling
  | connected
  | connectedGeneric
  | noDevice
deriving DecidableEq, Repr

/-- One entry of the rolling history buffer: the `{ throttle, brake, steering }`
record appended by the history interval callback. -/
structure HistoryItem where
  throttle : ℚ
  brake : ℚ
  steering : ℚ
deriving DecidableEq, Repr

/-- The `SessionStats` state: session start time and running peak values. -/
structure SessionStats where
  startTime : ℤ
  peakThrottle : ℚ
  peakBrake : ℚ
  peakSteering : ℚ
deriving DecidableEq, Repr

/-- A gamepad as seen through the platform input API: an identifier string
and an ordered list of axis readings. -/
structure Gamepad where
  id : String
  axes : List ℚ
deriving DecidableEq, Repr

/-- The mutable state of the telemetry component: the current normalized
signal, the history buffer, the connection status, the last-update
timestamp and the session statistics. -/
structure TelemetryState where
  throttle : ℚ
  brake : ℚ
  steering : ℚ
  steeringAngle : ℚ
  history : List HistoryItem
  connectionStatus : ConnectionStatus
  lastUpdate : ℤ
  sessionStats : SessionStats
deriving DecidableEq, Repr

/-- The `maxHistory` constant: capacity of the rolling history buffer. -/
def maxHistory : ℕ := 200

/-- The initial component state produced by the `useState` initializers. -/
def initState (now : ℤ) : TelemetryState :=
  { throttle := 0
    brake := 0
    steering := 0
    steeringAngle := 0
    history := []
    connectionStatus := ConnectionStatus.polling
    lastUpdate := now
    sessionStats :=
      { startTime := now, peakThrottle := 0, peakBrake := 0, peakSteering := 0 } }

/-- Models `id.toLowerCase().includes(tok)` for an already-lowercase token
`tok`: substring containment after lowercasing the identifier. -/
def strContains (id tok : String) : Bool :=
  decide (tok.toList <:+: id.toList.map Char.toLower)

/-- Brand token used by the match heuristic. -/
def tokSimagic : String := "simagic"

/-- Model token used by the match heuristic. -/
def tokP1000 : String := "p1000"

/-- Model token used by the match heuristic. -/
def tokP2000 : String := "p2000"

/-- The device match heuristic of the polling loop: the identifier contains
one of the brand/model tokens (case-insensitively), or the device exposes
at least 3 axes. -/
def isMatch (g : Gamepad) : Bool :=
  strContains g.id tokSimagic || strContains g.id tokP1000 ||
    strContains g.id tokP2000 || decide (3 ≤ g.axes.length)

/-- The `for` loop of `pollGamepads` with its `break`: the first non-null
gamepad satisfying `isMatch`, in enumeration order. -/
def findMatch : List (Option Gamepad) → Option Gamepad
  | [] => none
  | none :: rest => findMatch rest
  | some g :: rest => if isMatch g then some g else findMatch rest

/-- Models `gamepads.find(g => g !== null)`: the first non-null entry. -/
def firstSome : List (Option Gamepad) → Option Gamepad
  | [] => none
  | none :: rest => firstSome rest
  | some g :: _ => some g

/-- Models `axes[i] !== undefined ? axes[i] : d`: the reading at index `i`
when present, otherwise the default `d`. -/
def axisOrDefault (axes : List ℚ) (i : ℕ) (d : ℚ) : ℚ :=
  (axes.get? i).getD d

/-- Models the JavaScript falsy coercion `axes[i] || d`: the reading at
index `i` when present and nonzero, otherwise the default `d`. -/
def axisOr (axes : List ℚ) (i : ℕ) (d : ℚ) : ℚ :=
  match axes.get? i with
  | some v => if v = 0 then d else v
  | none => d

/-- The matched-path pedal normalizer, from
`axis === 0 && stored === 0 ? 0 : ((axis + 1) / 2) * 100`: maps a raw axis
reading to a percentage, with the zero-debounce special case. -/
def normalizeMatchedPedal (axis stored : ℚ) : ℚ :=
  if axis = 0 ∧ stored = 0 then 0 else ((axis + 1) / 2) * 100

/-- The fallback-generic pedal/steering normalizer, from
`((1 - axis) / 2) * 100` (inverted sense). -/
def normalizeGeneric (axis : ℚ) : ℚ :=
  ((1 - axis) / 2) * 100

/-- One invocation of the `pollGamepads` callback, as a pure function of
the enumerated gamepad slots, the current clock reading `now` (what
`Date.now()` returns during this cycle) and the component state. -/
def pollStep (gamepads : List (Option Gamepad)) (now : ℤ)
    (s : TelemetryState) : TelemetryState :=
  match findMatch gamepads with
  | some g =>
      let throttleAxis := axisOrDefault g.axes 1 (-1)
      let brakeAxis := axisOrDefault g.axes 2 (-1)
      let steeringAxis := axisOrDefault g.axes 0 0
      let newThrottle := normalizeMatchedPedal throttleAxis s.throttle
      let newBrake := normalizeMatchedPedal brakeAxis s.brake
      let rawSteeringAngle := steeringAxis * 450
      let newSteering := |steeringAxis| * 100
      { s with
        throttle := newThrottle
        brake := newBrake
        steering := newSteering
        steeringAngle := rawSteeringAngle
        sessionStats :=
          { s.sessionStats with
            peakThrottle := max s.sessionStats.peakThrottle newThrottle
            peakBrake := max s.sessionStats.peakBrake newBrake
            peakSteering := max s.sessionStats.peakSteering |rawSteeringAngle| }
        lastUpdate := now
        connectionStatus := ConnectionStatus.connected }
  | none =>
      match firstSome gamepads with
      | some g =>
          if 2 ≤ g.axes.length then
            let tAxis := axisOr g.axes 1 (-1)
            let bAxis := axisOr g.axes 2 (axisOr g.axes 0 0)
            let cAxis := axisOr g.axes 0 0
            { s with
              throttle := normalizeGeneric tAxis
              brake := normalizeGeneric bAxis
              steering := normalizeGeneric cAxis
              steeringAngle := cAxis * 450
              lastUpdate := now
              connectionStatus := ConnectionStatus.connectedGeneric }
          else s
      | none =>
          if now - s.lastUpdate > 2000 then
            { s with connectionStatus := ConnectionStatus.noDevice }
          else s

/-- One invocation of the history interval callback on the buffer alone:
append the current sample and drop the oldest entry (`shift()`) when the
capacity `maxHistory` is exceeded. -/
def historyAppend (prev : List HistoryItem) (item : HistoryItem) : List HistoryItem :=
  if maxHistory < (prev ++ [item]).length then (prev ++ [item]).tail else prev ++ [item]

/-- One invocation of the history interval callback on the component state:
append the current normalized signal snapshot to the history buffer. -/
def historyStep (s : TelemetryState) : TelemetryState :=
  { s with history := historyAppend s.history ⟨s.throttle, s.brake, s.steering⟩ }

/-- The manual refresh operation. -/
def refresh (now : ℤ) (s : TelemetryState) : TelemetryState :=
  { s with connectionStatus := ConnectionStatus.polling, lastUpdate := now }

/-- Abstract drawing commands emitted by the draw effect, in order. -/
inductive DrawCmd
  | fillRect (x y w h : ℚ)
  | gridLine (y : ℚ)
  | polyline (color : String) (points : List (ℚ × ℚ))
deriving DecidableEq, Repr

/-- Stroke color of the throttle series. -/
def colorThrottle : String := "#00c73cff"

/-- Stroke color of the brake series. -/
def colorBrake : String := "#ef4444"

/-- Stroke color of the steering series. -/
def colorSteering : String := "#3b82f6"

/-- The points visited by `drawAxis`: for the `i`-th buffered sample, the
x-coordinate is `i * xStep` with `xStep = width / (maxHistory - 1)` and the
y-coordinate is `height - (value / 100) * height`. -/
def drawAxisPoints (history : List HistoryItem) (width height : ℚ)
    (dataKey : HistoryItem → ℚ) : List (ℚ × ℚ) :=
  let xStep := width / ((maxHistory : ℚ) - 1)
  history.enum.map (fun p => ((p.1 : ℚ) * xStep, height - (dataKey p.2 / 100) * height))

/-- The draw effect as the ordered list of commands it issues: background
fill, five gridlines, and — only when at least 2 samples are buffered —
the three series polylines in throttle, brake, steering order. -/
def drawCommands (history : List HistoryItem) (width height : ℚ) : List DrawCmd :=
  let bg := [DrawCmd.fillRect 0 0 width height]
  let grid := (List.range 5).map (fun i => DrawCmd.gridLine ((height / 4) * (i : ℚ)))
  if history.length < 2 then bg ++ grid
  else
    bg ++ grid ++
      [DrawCmd.polyline colorThrottle (drawAxisPoints history width height HistoryItem.throttle),
       DrawCmd.polyline colorBrake (drawAxisPoints history width height HistoryItem.brake),
       DrawCmd.polyline colorSteering (drawAxisPoints history width height HistoryItem.steering)]

/-- The spec's reading of the match heuristic, stated from its words: the
identifier contains (case-insensitively) one of the configured brand/model
tokens, or the source exposes at least 3 axes. -/
def specMatch (g : Gamepad) : Prop :=
  (∃ tok ∈ [tokSimagic, tokP1000, tokP2000],
      tok.toList <:+: g.id.toList.map Char.toLower) ∨ 3 ≤ g.axes.length

/-- Example matched device used to exercise the theorems below: three axes,
brand token in the identifier. -/
def simagicG : Gamepad := { id := "Simagic Alpha", axes := [0, 0, 0] }

/-- Example non-matching two-axis device. -/
def mouseG : Gamepad := { id := "Mouse", axes := [0, 0] }

/-- Example non-matching one-axis device. -/
def mouse1G : Gamepad := { id := "Mouse", axes := [0] }

/-- Example non-matching two-axis device with nonzero axis readings. -/
def genericG : Gamepad := { id := "Mouse", axes := [1/4, 1/2] }

/-- Example non-matching two-axis device whose throttle axis reads 0. -/
def fallbackZeroG : Gamepad := { id := "Mouse", axes := [3/10, 0] }

/-- Example non-matching two-axis device whose throttle axis reads -1. -/
def fallbackPeakG : Gamepad := { id := "Mouse", axes := [0, -1] }

/-- Example history item used to exercise the theorems below. -/
def oneSample : HistoryItem := { throttle := 40, brake := 10, steering := 5 }

theorem historyAppend_length_le (prev : List HistoryItem) (item : HistoryItem)
    (h : prev.length ≤ maxHistory) :
    (historyAppend prev item).length ≤ maxHistory := by
  unfold historyAppend
  by_cases hc : maxHistory < (prev ++ [item]).length
  · rw [if_pos hc]
    simp only [List.length_tail, List.length_append, List.length_cons, List.length_nil] at *
    omega
  · rw [if_neg hc]
    simp only [List.length_append, List.length_cons, List.length_nil] at *
    omega

theorem foldl_historyAppend_drop (items : List HistoryItem) :
    ∀ acc : List HistoryItem, acc.length ≤ maxHistory →
      List.foldl historyAppend acc items =
        (acc ++ items).drop (acc.length + items.length - maxHistory) := by
  induction items with
  | nil =>
      intro acc h
      rw [List.foldl_nil, List.append_nil, List.length_nil,
        show acc.length + 0 - maxHistory = 0 from by omega, List.drop_zero]
  | cons i rest ih =>
      intro acc h
      rw [List.foldl_cons, ih (historyAppend acc i) (historyAppend_length_le acc i h)]
      unfold historyAppend
      by_cases hc : maxHistory < (acc ++ [i]).length
      · rw [if_pos hc]
        have hacc : acc.length = maxHistory := by
          simp only [List.length_append, List.length_cons, List.length_nil] at hc
          omega
        obtain ⟨a, t, rfl⟩ : ∃ a t, acc = a :: t := by
          cases acc with
          | nil => simp [maxHistory] at hacc
          | cons a t => exact ⟨a, t, rfl⟩
        have ht : t.length + 1 = maxHistory := by simpa using hacc
        simp only [List.cons_append, List.tail_cons, List.length_append,
          List.length_cons, List.length_nil, List.append_assoc, List.singleton_append,
          List.nil_append]
        rw [show t.length + (0 + 1) + rest.length - maxHistory = rest.length from by omega,
          show t.length + 1 + (rest.length + 1) - maxHistory = rest.length + 1 from by omega,
          List.drop_succ_cons]
      · rw [if_neg hc]
        simp only [List.length_append, List.length_cons, List.length_nil, List.append_assoc,
          List.singleton_append]
        rw [show acc.length + (0 + 1) + rest.length - maxHistory
              = acc.length + (rest.length + 1) - maxHistory from by omega]

/-- C1: the history buffer never holds more than 200 entries, however many
appends are performed from the empty buffer, and eviction is strict FIFO:
after 201 appends the buffer's first element is the value appended second. -/
theorem history_bounded_fifo (items : List HistoryItem) :
    (List.foldl historyAppend [] items).length ≤ maxHistory ∧
    (items.length = 201 →
      (List.foldl historyAppend [] items).head? = items.get? 1) := by
  have hmain := foldl_historyAppend_drop items [] (by simp [maxHistory])
  rw [List.length_nil, List.nil_append] at hmain
  constructor
  · rw [hmain, List.length_drop]
    omega
  · intro h201
    rw [hmain, h201, show 0 + 201 - maxHistory = 1 from by rw [maxHistory],
      List.head?_drop, List.get?_eq_getElem?]

/-- Witness for C1 at a concrete sequence of 201 appended samples. -/
theorem history_bounded_fifo_witness :
    (List.foldl historyAppend [] (List.replicate 201 oneSample)).length ≤ maxHistory ∧
    ((List.replicate 201 oneSample).length = 201 →
      (List.foldl historyAppend [] (List.replicate 201 oneSample)).head? =
        (List.replicate 201 oneSample).get? 1) :=
  history_bounded_fifo (List.replicate 201 oneSample)

/-- C2: on the matched-device path, for every raw axis reading in [-1, 1]
outside the zero/zero debounce case, the normalizer returns
((a + 1) / 2) * 100, and that value lies in [0, 100]. -/
theorem matched_normalizer_formula (a stored : ℚ) (h1 : -1 ≤ a) (h2 : a ≤ 1)
    (h3 : ¬(a = 0 ∧ stored = 0)) :
    normalizeMatchedPedal a stored = ((a + 1) / 2) * 100 ∧
    0 ≤ ((a + 1) / 2) * 100 ∧ ((a + 1) / 2) * 100 ≤ 100 := by
  unfold normalizeMatchedPedal
  rw [if_neg h3]
  refine ⟨rfl, by linarith, by linarith⟩

/-- Witness for C2 at the raw reading 1/2 with stored percent 7. -/
theorem matched_normalizer_formula_witness :
    normalizeMatchedPedal (1/2) 7 = (((1:ℚ)/2 + 1) / 2) * 100 ∧
    0 ≤ (((1:ℚ)/2 + 1) / 2) * 100 ∧ (((1:ℚ)/2 + 1) / 2) * 100 ≤ 100 :=
  matched_normalizer_formula (1/2) 7 (by norm_num) (by norm_num) (by norm_num)

/-- C4: on the matched-device path, when the stored throttle percent is 0
and the raw throttle axis reads exactly 0, the new throttle stays 0 rather
than becoming 50; the same holds for brake. -/
theorem zero_debounce (gamepads : List (Option Gamepad)) (g : Gamepad) (now : ℤ)
    (s : TelemetryState)
    (hm : findMatch gamepads = some g)
    (ht : g.axes.get? 1 = some 0) (hb : g.axes.get? 2 = some 0)
    (hst : s.throttle = 0) (hsb : s.brake = 0) :
    (pollStep gamepads now s).throttle = 0 ∧ (pollStep gamepads now s).brake = 0 := by
  unfold pollStep
  rw [hm]
  rw [List.get?_eq_getElem?] at ht hb
  simp [axisOrDefault, List.get?_eq_getElem?, ht, hb, normalizeMatchedPedal, hst, hsb]

/-- Witness for C4: a matched three-axis device with all axes at 0 and the
initial state. -/
theorem zero_debounce_witness :
    (pollStep [some simagicG] 5 (initState 0)).throttle = 0 ∧
    (pollStep [some simagicG] 5 (initState 0)).brake = 0 :=
  zero_debounce [some simagicG] simagicG 5 (initState 0) (by decide) (by decide)
    (by decide) (by decide) (by decide)

/-- C9: the manual refresh operation sets the connection status to the
searching state and the last-successful-match timestamp to now, and leaves
the history buffer and the session statistics unchanged. -/
theorem refresh_resets_status_preserves_data (now : ℤ) (s : TelemetryState) :
    (refresh now s).connectionStatus = ConnectionStatus.polling ∧
    (refresh now s).lastUpdate = now ∧
    (refresh now s).history = s.history ∧
    (refresh now s).sessionStats = s.sessionStats :=
  ⟨rfl, rfl, rfl, rfl⟩

/-- C3: the connection status transitions to the no-device state only when
at least 2000 ms have elapsed since the last successful match, and a gap of
1999 ms followed by a new match never passes through the no-device state. -/
theorem noDevice_only_after_timeout :
    (∀ (gamepads : List (Option Gamepad)) (now : ℤ) (s : TelemetryState),
        (pollStep gamepads now s).connectionStatus = ConnectionStatus.noDevice →
        s.connectionStatus = ConnectionStatus.noDevice ∨ 2000 ≤ now - s.lastUpdate) ∧
    (∀ (s : TelemetryState) (g : Gamepad) (now1 now2 : ℤ),
        s.connectionStatus ≠ ConnectionStatus.noDevice →
        now1 - s.lastUpdate ≤ 1999 → isMatch g = true →
        (pollStep [] now1 s).connectionStatus ≠ ConnectionStatus.noDevice ∧
        (pollStep [some g] now2 (pollStep [] now1 s)).connectionStatus =
          ConnectionStatus.connected) := by
  constructor
  · intro gamepads now s h
    unfold pollStep at h
    split at h
    · simp at h
    · split at h
      · split at h
        · simp at h
        · exact Or.inl h
      · split at h
        · exact Or.inr (by omega)
        · exact Or.inl h
  · intro s g now1 now2 hs ht hmatch
    have h1 : pollStep [] now1 s = s := by
      unfold pollStep
      simp only [findMatch, firstSome]
      rw [if_neg (by omega : ¬ now1 - s.lastUpdate > 2000)]
    have hc : ∀ t : TelemetryState, (pollStep [some g] now2 t).connectionStatus =
        ConnectionStatus.connected := by
      intro t
      unfold pollStep
      simp only [findMatch, hmatch, if_true]
    rw [h1]
    exact ⟨hs, hc s⟩

/-- Witness for C3: an empty enumeration 3000 ms after the last match does
transition, an empty enumeration at 1999 ms followed by a matched device
stays out of the no-device state. -/
theorem noDevice_only_after_timeout_witness :
    ((initState 0).connectionStatus = ConnectionStatus.noDevice ∨
      (2000:ℤ) ≤ 3000 - (initState 0).lastUpdate) ∧
    ((pollStep [] 1999 (initState 0)).connectionStatus ≠ ConnectionStatus.noDevice ∧
      (pollStep [some simagicG] 2005 (pollStep [] 1999 (initState 0))).connectionStatus =
        ConnectionStatus.connected) := by
  constructor
  · exact noDevice_only_after_timeout.1 [] 3000 (initState 0) (by decide)
  · exact noDevice_only_after_timeout.2 (initState 0) simagicG 1999 2005
      (by decide) (by decide) (by decide)

/-- C7: a source matches exactly when its identifier contains one of the
configured tokens case-insensitively or it exposes at least 3 axes; the
first match in enumeration order wins; a Simagic P2000 matches, a 4-axis
generic gamepad matches, a 2-axis mouse does not and falls to the generic
path. -/
theorem match_heuristic :
    (∀ g : Gamepad, isMatch g = true ↔ specMatch g) ∧
    (∀ (pre post : List (Option Gamepad)) (g : Gamepad),
        (∀ og ∈ pre, (og.map isMatch).getD false = false) →
        isMatch g = true →
        findMatch (pre ++ some g :: post) = some g) ∧
    isMatch { id := "Simagic P2000", axes := [] } = true ∧
    isMatch { id := "Generic USB Gamepad", axes := [0, 0, 0, 0] } = true ∧
    isMatch { id := "Mouse", axes := [0, 0] } = false ∧
    (pollStep [some { id := "Mouse", axes := [0, 0] }] 0 (initState 0)).connectionStatus =
      ConnectionStatus.connectedGeneric := by
  refine ⟨?_, ?_, by decide, by decide, by decide, by decide⟩
  · intro g
    unfold isMatch specMatch strContains
    simp only [Bool.or_eq_true, decide_eq_true_eq, List.mem_cons, List.mem_singleton]
    constructor
    · rintro (((h | h) | h) | h)
      · exact Or.inl ⟨tokSimagic, Or.inl rfl, h⟩
      · exact Or.inl ⟨tokP1000, Or.inr (Or.inl rfl), h⟩
      · exact Or.inl ⟨tokP2000, Or.inr (Or.inr (Or.inl rfl)), h⟩
      · exact Or.inr h
    · rintro (⟨tok, htok, hsub⟩ | h)
      · rcases htok with rfl | rfl | rfl | hfalse
        · exact Or.inl (Or.inl (Or.inl hsub))
        · exact Or.inl (Or.inl (Or.inr hsub))
        · exact Or.inl (Or.inr hsub)
        · simp at hfalse
      · exact Or.inr h
  · intro pre post g
    induction pre with
    | nil => intro _ hg; simp [findMatch, hg]
    | cons o rest ih =>
        intro hpre hg
        have hrest : ∀ og ∈ rest, (og.map isMatch).getD false = false :=
          fun og hmem => hpre og (List.mem_cons_of_mem _ hmem)
        cases o with
        | none => simpa [findMatch] using ih hrest hg
        | some h =>
            have hno : isMatch h = false := by
              simpa using hpre (some h) (List.mem_cons_self _ _)
            simpa [findMatch, hno] using ih hrest hg

/-- Witness for C7: the first match wins over a preceding non-matching
mouse and an empty slot. -/
theorem match_heuristic_witness :
    findMatch ([some mouseG, none] ++ some simagicG :: []) = some simagicG :=
  match_heuristic.2.1 [some mouseG, none] [] simagicG (by decide) (by decide)

/-- C8: when fewer than 2 samples are buffered the draw routine emits only
the background fill and the five gridlines — no series polyline. -/
theorem degenerate_draw (history : List HistoryItem) (width height : ℚ)
    (h : history.length < 2) :
    drawCommands history width height =
      DrawCmd.fillRect 0 0 width height ::
        (List.range 5).map (fun i => DrawCmd.gridLine ((height / 4) * (i : ℚ))) ∧
    ∀ c ∈ drawCommands history width height, ∀ color pts, c ≠ DrawCmd.polyline color pts := by
  have h1 : drawCommands history width height =
      DrawCmd.fillRect 0 0 width height ::
        (List.range 5).map (fun i => DrawCmd.gridLine ((height / 4) * (i : ℚ))) := by
    unfold drawCommands
    rw [if_pos h]
    rfl
  refine ⟨h1, ?_⟩
  intro c hc color pts
  rw [h1] at hc
  rcases List.mem_cons.mp hc with rfl | hmem
  · intro hfalse; cases hfalse
  · obtain ⟨i, _, rfl⟩ := List.mem_map.mp hmem
    intro hfalse; cases hfalse

/-- Witness for C8: one buffered sample on the 1200 by 300 canvas yields
exactly the background and the gridlines at 0, 75, 150, 225, 300. -/
theorem degenerate_draw_witness :
    drawCommands [oneSample] 1200 300 =
      [DrawCmd.fillRect 0 0 1200 300, DrawCmd.gridLine 0, DrawCmd.gridLine 75,
        DrawCmd.gridLine 150, DrawCmd.gridLine 225, DrawCmd.gridLine 300] := by
  rw [(degenerate_draw [oneSample] 1200 300 (by norm_num)).1]
  norm_num [List.range_succ]

theorem pollStep_fallback (gamepads : List (Option Gamepad)) (now : ℤ)
    (s : TelemetryState) (g : Gamepad)
    (hfm : findMatch gamepads = none) (hfs : firstSome gamepads = some g)
    (hlen : 2 ≤ g.axes.length) :
    pollStep gamepads now s =
      { s with
        throttle := normalizeGeneric (axisOr g.axes 1 (-1))
        brake := normalizeGeneric (axisOr g.axes 2 (axisOr g.axes 0 0))
        steering := normalizeGeneric (axisOr g.axes 0 0)
        steeringAngle := (axisOr g.axes 0 0) * 450
        lastUpdate := now
        connectionStatus := ConnectionStatus.connectedGeneric } := by
  simp only [pollStep, hfm, hfs]
  rw [if_pos hlen]

theorem axisOr_eq_of_ne_zero (axes : List ℚ) (i : ℕ) (d v : ℚ)
    (h : axes.get? i = some v) (h0 : v ≠ 0) : axisOr axes i d = v := by
  simp only [axisOr]
  rw [h]
  show (if v = 0 then d else v) = v
  rw [if_neg h0]

theorem axisOr_eq_default_of_zero (axes : List ℚ) (i : ℕ) (d : ℚ)
    (h : axes.get? i = some 0) : axisOr axes i d = d := by
  simp only [axisOr]
  rw [h]
  show (if (0:ℚ) = 0 then d else (0:ℚ)) = d
  rw [if_pos rfl]

/-- C5 counterexample: a single fallback-generic poll cycle from the
initial state produces a normalized throttle sample of 100 while leaving
peakThrottle at 0, so after that cycle the peak does not equal the maximum
normalized throttle value seen since session start. -/
theorem peaks_not_all_samples_cex :
    (pollStep [some fallbackPeakG] 0 (initState 0)).throttle = 100 ∧
    (pollStep [some fallbackPeakG] 0 (initState 0)).sessionStats.peakThrottle = 0 ∧
    (pollStep [some fallbackPeakG] 0 (initState 0)).sessionStats.peakThrottle ≠
      max (initState 0).sessionStats.peakThrottle
        (pollStep [some fallbackPeakG] 0 (initState 0)).throttle := by
  have hstep := pollStep_fallback [some fallbackPeakG] 0 (initState 0) fallbackPeakG
    (by decide) rfl (by decide)
  have h1 : (pollStep [some fallbackPeakG] 0 (initState 0)).throttle = 100 := by
    rw [hstep]
    show normalizeGeneric (axisOr fallbackPeakG.axes 1 (-1)) = 100
    rw [axisOr_eq_of_ne_zero fallbackPeakG.axes 1 (-1) (-1) rfl (by norm_num)]
    norm_num [normalizeGeneric]
  have h2 : (pollStep [some fallbackPeakG] 0 (initState 0)).sessionStats.peakThrottle
      = 0 := by
    rw [hstep]
    rfl
  refine ⟨h1, h2, ?_⟩
  rw [h1, h2, show (initState 0).sessionStats.peakThrottle = 0 from rfl,
    max_eq_right (by norm_num : (0:ℚ) ≤ 100)]
  norm_num

/-- C5 amended: every peak statistic is non-decreasing across every poll
cycle; a matched cycle updates each peak to the maximum of the previous
peak and the new normalized sample; a cycle without a matched device
(including the fallback-generic path) leaves the session statistics
unchanged. -/
theorem peaks_running_max :
    (∀ (gamepads : List (Option Gamepad)) (now : ℤ) (s : TelemetryState),
        s.sessionStats.peakThrottle ≤ (pollStep gamepads now s).sessionStats.peakThrottle ∧
        s.sessionStats.peakBrake ≤ (pollStep gamepads now s).sessionStats.peakBrake ∧
        s.sessionStats.peakSteering ≤ (pollStep gamepads now s).sessionStats.peakSteering) ∧
    (∀ (gamepads : List (Option Gamepad)) (now : ℤ) (s : TelemetryState) (g : Gamepad),
        findMatch gamepads = some g →
        (pollStep gamepads now s).sessionStats.peakThrottle =
          max s.sessionStats.peakThrottle (pollStep gamepads now s).throttle ∧
        (pollStep gamepads now s).sessionStats.peakBrake =
          max s.sessionStats.peakBrake (pollStep gamepads now s).brake ∧
        (pollStep gamepads now s).sessionStats.peakSteering =
          max s.sessionStats.peakSteering |(pollStep gamepads now s).steeringAngle|) ∧
    (∀ (gamepads : List (Option Gamepad)) (now : ℤ) (s : TelemetryState),
        findMatch gamepads = none →
        (pollStep gamepads now s).sessionStats = s.sessionStats) := by
  refine ⟨?_, ?_, ?_⟩
  · intro gamepads now s
    unfold pollStep
    split
    · exact ⟨le_max_left _ _, le_max_left _ _, le_max_left _ _⟩
    · split
      · split
        · exact ⟨le_refl _, le_refl _, le_refl _⟩
        · exact ⟨le_refl _, le_refl _, le_refl _⟩
      · split
        · exact ⟨le_refl _, le_refl _, le_refl _⟩
        · exact ⟨le_refl _, le_refl _, le_refl _⟩
  · intro gamepads now s g hm
    simp only [pollStep, hm]
    exact ⟨trivial, trivial, trivial⟩
  · intro gamepads now s hm
    simp only [pollStep, hm]
    split
    · split
      · rfl
      · rfl
    · split
      · rfl
      · rfl

/-- Witness for C5 at a matched three-axis device and the initial state. -/
theorem peaks_running_max_witness :
    (pollStep [some simagicG] 0 (initState 0)).sessionStats.peakThrottle =
      max (initState 0).sessionStats.peakThrottle
        (pollStep [some simagicG] 0 (initState 0)).throttle :=
  (peaks_running_max.2.1 [some simagicG] 0 (initState 0) simagicG (by decide)).1

/-- C6 counterexample: on the fallback-generic path a raw throttle axis
reading of exactly 0 (within [-1, 1]) is coerced to -1, so the normalized
throttle is 100 rather than ((1 - 0) / 2) * 100 = 50. -/
theorem fallback_formula_cex :
    (pollStep [some fallbackZeroG] 0 (initState 0)).throttle = 100 ∧
    normalizeGeneric 0 = 50 ∧
    (pollStep [some fallbackZeroG] 0 (initState 0)).throttle ≠ normalizeGeneric 0 := by
  have hstep := pollStep_fallback [some fallbackZeroG] 0 (initState 0) fallbackZeroG
    (by decide) rfl (by decide)
  have h1 : (pollStep [some fallbackZeroG] 0 (initState 0)).throttle = 100 := by
    rw [hstep]
    show normalizeGeneric (axisOr fallbackZeroG.axes 1 (-1)) = 100
    rw [axisOr_eq_default_of_zero fallbackZeroG.axes 1 (-1) rfl]
    norm_num [normalizeGeneric]
  have h2 : normalizeGeneric 0 = 50 := by norm_num [normalizeGeneric]
  refine ⟨h1, h2, ?_⟩
  rw [h1, h2]
  norm_num

/-- C6 amended: on the fallback-generic path the inverted formula
((1 - a) / 2) * 100 is applied to the axis reading selected after the
falsy-coercion defaulting: the raw throttle (axis 1) and steering (axis 0)
readings are used whenever they are nonzero, a zero throttle reading is
replaced by -1 (yielding 100), and the brake applies the formula to axis 2
when present and nonzero, falling back to axis 0 and then to 0. -/
theorem fallback_inverted_formula (gamepads : List (Option Gamepad)) (now : ℤ)
    (s : TelemetryState) (g : Gamepad)
    (hfm : findMatch gamepads = none) (hfs : firstSome gamepads = some g)
    (hlen : 2 ≤ g.axes.length) :
    (∀ a : ℚ, g.axes.get? 1 = some a → a ≠ 0 →
        (pollStep gamepads now s).throttle = ((1 - a) / 2) * 100) ∧
    (pollStep gamepads now s).brake =
      ((1 - axisOr g.axes 2 (axisOr g.axes 0 0)) / 2) * 100 ∧
    (∀ c : ℚ, g.axes.get? 0 = some c → c ≠ 0 →
        (pollStep gamepads now s).steering = ((1 - c) / 2) * 100) ∧
    (g.axes.get? 1 = some 0 → (pollStep gamepads now s).throttle = 100) := by
  have hstep := pollStep_fallback gamepads now s g hfm hfs hlen
  refine ⟨?_, ?_, ?_, ?_⟩
  · intro a ha ha0
    rw [hstep]
    show normalizeGeneric (axisOr g.axes 1 (-1)) = ((1 - a) / 2) * 100
    rw [axisOr_eq_of_ne_zero g.axes 1 (-1) a ha ha0]
    rfl
  · rw [hstep]
    rfl
  · intro c hc hc0
    rw [hstep]
    show normalizeGeneric (axisOr g.axes 0 0) = ((1 - c) / 2) * 100
    rw [axisOr_eq_of_ne_zero g.axes 0 0 c hc hc0]
    rfl
  · intro h0
    rw [hstep]
    show normalizeGeneric (axisOr g.axes 1 (-1)) = 100
    rw [axisOr_eq_default_of_zero g.axes 1 (-1) h0]
    norm_num [normalizeGeneric]

/-- Witness for C6: a two-axis generic device with nonzero readings obeys
the inverted formula, and one whose throttle axis reads 0 yields 100. -/
theorem fallback_inverted_formula_witness :
    (pollStep [some genericG] 0 (initState 0)).throttle = ((1 - (1:ℚ)/2) / 2) * 100 ∧
    (pollStep [some fallbackZeroG] 3 (initState 0)).throttle = 100 := by
  constructor
  · exact (fallback_inverted_formula [some genericG] 0 (initState 0) genericG
      (by decide) rfl (by decide)).1 (1/2) rfl (by norm_num)
  · exact (fallback_inverted_formula [some fallbackZeroG] 3 (initState 0) fallbackZeroG
      (by decide) rfl (by decide)).2.2.2 rfl

theorem findMatch_eq_none (l : List (Option Gamepad))
    (h : ∀ og ∈ l, (og.map isMatch).getD false = false) :
    findMatch l = none := by
  induction l with
  | nil => rfl
  | cons o rest ih =>
      have hrest : ∀ og ∈ rest, (og.map isMatch).getD false = false :=
        fun og hmem => h og (List.mem_cons_of_mem _ hmem)
      cases o with
      | none => simpa [findMatch] using ih hrest
      | some g =>
          have hg : isMatch g = false := by simpa using h (some g) (List.mem_cons_self _ _)
          simpa [findMatch, hg] using ih hrest

theorem firstSome_mem (l : List (Option Gamepad)) (g : Gamepad)
    (h : firstSome l = some g) : some g ∈ l := by
  induction l with
  | nil => cases h
  | cons o rest ih =>
      cases o with
      | none => exact List.mem_cons_of_mem _ (ih (by simpa [firstSome] using h))
      | some gq =>
          have hq : gq = g := by simpa [firstSome] using h
          rw [hq]
          exact List.mem_cons_self _ _

theorem firstSome_isSome (l : List (Option Gamepad))
    (h : ∃ og ∈ l, og.isSome = true) : ∃ g, firstSome l = some g := by
  induction l with
  | nil =>
      obtain ⟨og, hmem, _⟩ := h
      cases hmem
  | cons o rest ih =>
      cases o with
      | some g => exact ⟨g, rfl⟩
      | none =>
          obtain ⟨og, hmem, hs⟩ := h
          rcases List.mem_cons.mp hmem with rfl | hmem2
          · simp at hs
          · simpa [firstSome] using ih ⟨og, hmem2, hs⟩

theorem pollStep_noop_of_unusable (gamepads : List (Option Gamepad)) (now : ℤ)
    (s : TelemetryState)
    (hsome : ∃ og ∈ gamepads, og.isSome = true)
    (hall : ∀ og ∈ gamepads, (og.map isMatch).getD false = false ∧
        (og.map (fun g => g.axes.length)).getD 0 < 2) :
    pollStep gamepads now s = s := by
  have hfm : findMatch gamepads = none :=
    findMatch_eq_none _ (fun og hm => (hall og hm).1)
  obtain ⟨g, hfs⟩ := firstSome_isSome gamepads hsome
  have hmem := firstSome_mem gamepads g hfs
  have hlen : g.axes.length < 2 := by simpa using (hall (some g) hmem).2
  simp only [pollStep, hfm, hfs]
  rw [if_neg (by omega : ¬ 2 ≤ g.axes.length)]

/-- C10: whenever every poll cycle sees at least one non-null source, no
source matches and every present source has fewer than 2 axes, the
connection status never transitions to the no-device state, regardless of
the times at which the cycles run — the 2000 ms timeout check is skipped
whenever a non-null, non-matching source exists. -/
theorem presence_skips_timeout (steps : List (List (Option Gamepad) × ℤ))
    (s : TelemetryState)
    (hsteps : ∀ p ∈ steps, (∃ og ∈ p.1, og.isSome = true) ∧
        ∀ og ∈ p.1, (og.map isMatch).getD false = false ∧
          (og.map (fun g => g.axes.length)).getD 0 < 2)
    (hs : s.connectionStatus ≠ ConnectionStatus.noDevice) :
    (steps.foldl (fun st p => pollStep p.1 p.2 st) s).connectionStatus ≠
      ConnectionStatus.noDevice := by
  have hfold : ∀ (ss : List (List (Option Gamepad) × ℤ)) (t : TelemetryState),
      (∀ p ∈ ss, (∃ og ∈ p.1, og.isSome = true) ∧
        ∀ og ∈ p.1, (og.map isMatch).getD false = false ∧
          (og.map (fun g => g.axes.length)).getD 0 < 2) →
      ss.foldl (fun st p => pollStep p.1 p.2 st) t = t := by
    intro ss
    induction ss with
    | nil => intro t _; rfl
    | cons p rest ih =>
        intro t hst
        rw [List.foldl_cons,
          pollStep_noop_of_unusable p.1 p.2 t (hst p (List.mem_cons_self _ _)).1
            (hst p (List.mem_cons_self _ _)).2]
        exact ih t (fun q hq => hst q (List.mem_cons_of_mem _ hq))
  rw [hfold steps s hsteps]
  exact hs

/-- Witness for C10: a single one-axis non-matching mouse polled very late
still leaves the initial state out of the no-device state. -/
theorem presence_skips_timeout_witness :
    (([([some mouse1G], 999999)] : List (List (Option Gamepad) × ℤ)).foldl
        (fun st p => pollStep p.1 p.2 st) (initState 0)).connectionStatus ≠
      ConnectionStatus.noDevice :=
  presence_skips_timeout [([some mouse1G], 999999)] (initState 0) (by decide) (by decide)
